import Mathlib

/-
Verification of the scheduled_radio contract
(src/bluetoe/link_layer/scheduled_radio.hpp).

The repository ships only the interface declaration of
bluetoe::link_layer::scheduled_radio together with its contract
documentation; no implementation is under src/.  The definitions below
are therefore a shallow embedding of that contract: the scheduler is a
deterministic state machine whose hardware-dependent behaviour (whether a
response arrived, whether the CRC check passed, at which absolute time the
first valid PDU of a connection event was received) is supplied as an
explicit environment input.  Time is modelled as Nat (absolute points and
non-negative delta_time offsets), buffers as views (index plus length)
into a flat memory modelled as a list of bytes.
-/

namespace Bluetoe

/-- Configuration values latched by set_access_address_and_crc_init:
the access address and the initial CRC value for transmitted and received
PDUs. -/
structure Config where
  accessAddress : Nat
  crcInit : Nat
deriving DecidableEq, Repr

/-- Modelled from the spec: bluetoe::link_layer::write_buffer (declared in
buffer.hpp, which is not under src/) is an immutable view over transmit
data: a data pointer plus a length.  The pointer is modelled as an index
into the flat memory. -/
structure write_buffer where
  addr : Nat
  size : Nat
deriving DecidableEq, Repr

/-- Modelled from the spec: bluetoe::link_layer::read_buffer (declared in
buffer.hpp, which is not under src/) is a mutable view, owned by the
caller, into which the radio copies received data; a view of size 0 is
empty and signals that no receiving is intended. -/
structure read_buffer where
  addr : Nat
  size : Nat
deriving DecidableEq, Repr

/-- An operation scheduled by one of the two scheduling functions and not
yet completed.  Each pending operation captures the configuration that was
latched at the time of the scheduling call, so that a later
set_access_address_and_crc_init cannot retroactively affect it. -/
inductive PendingOp
  | adv (channel : Nat) (transmit : write_buffer) (whenT : Nat)
        (receive : read_buffer) (cfg : Config)
  | conn (channel startReceive endReceive connectionInterval : Nat)
         (cfg : Config)
deriving DecidableEq, Repr

/-- State of the scheduled radio: the time anchor T0 (absolute time, Nat),
the latched configuration, the at most one pending scheduled operation,
the flat byte memory holding caller buffers, the persistent device-unique
seed, and the wake_up flag forcing run to return. -/
structure RadioState where
  anchor : Nat
  latch : Config
  pending : Option PendingOp
  mem : List Nat
  deviceSeed : Nat
  wakeRequested : Bool
deriving DecidableEq, Repr

/-- Hardware observation during an advertising operation: either a valid
response was captured at absolute time t, or data was received but failed
the CRC-equivalent integrity check at absolute time t, or nothing was
received before the window closed. -/
inductive AdvEvent
  | response (data : List Nat) (t : Nat)
  | crcError (t : Nat)
  | noResponse
deriving DecidableEq, Repr

/-- Environment of one advertising operation: the absolute time the
transmission finished, the absolute time the receive window would close,
and what the hardware observed. -/
structure AdvEnv where
  sendDone : Nat
  windowClose : Nat
  event : AdvEvent
deriving DecidableEq, Repr

/-- Environment of one connection event: the absolute time at which the
first valid PDU was received from the master (none when no valid PDU was
received between start_receive and end_receive), and the absolute time at
which the event closed. -/
structure ConnEnv where
  firstReceive : Option Nat
  eventEnd : Nat
deriving DecidableEq, Repr

/-- Combined environment input to run: the advertising part is consulted
when an advertising operation is pending, the connection part when a
connection event is pending. -/
structure Env where
  adv : AdvEnv
  conn : ConnEnv
deriving DecidableEq, Repr

/-- The four outcome callbacks of the CallBack parameter:
adv_received, adv_timeout, timeout (connection event) and end_event. -/
inductive Outcome
  | adv_received (receive : read_buffer)
  | adv_timeout
  | timeout
  | end_event
deriving DecidableEq, Repr

/-- One delivered callback: which outcome fired, the absolute time at
which it fired, and the configuration the completed operation ran under. -/
structure Delivery where
  outcome : Outcome
  time : Nat
  usedConfig : Config
deriving DecidableEq, Repr

/-- Write a list of bytes into the flat memory starting at index addr. -/
def writeBytes (mem : List Nat) (addr : Nat) (bytes : List Nat) : List Nat :=
  match bytes with
  | [] => mem
  | b :: bs => writeBytes (mem.set addr b) (addr + 1) bs

/-- Modelled from the spec: schedule_advertisment_and_receive (declared
but not implemented under src/).  The call returns immediately and is
non-blocking: it only records the pending advertising operation, capturing
the channel, the transmit and receive views, the offset when, and the
currently latched configuration.  No callback fires here and no memory is
touched. -/
def schedule_advertisment_and_receive (s : RadioState) (channel : Nat)
    (transmit : write_buffer) (whenT : Nat) (receive : read_buffer) :
    RadioState :=
  { s with pending := some (.adv channel transmit whenT receive s.latch) }

/-- Modelled from the spec: schedule_connection_event (declared but not
implemented under src/).  The call returns immediately and only records
the pending connection event with the currently latched configuration. -/
def schedule_connection_event (s : RadioState) (channel : Nat)
    (startReceive endReceive connectionInterval : Nat) : RadioState :=
  { s with
    pending := some (.conn channel startReceive endReceive
                     connectionInterval s.latch) }

/-- Modelled from the spec: set_access_address_and_crc_init (declared but
not implemented under src/).  It only updates the latch; the values are
applied with the next scheduling call, which captures the latch. -/
def set_access_address_and_crc_init (s : RadioState)
    (access_address crc_init : Nat) : RadioState :=
  { s with latch := ⟨access_address, crc_init⟩ }

/-- Modelled from the spec: static_random_address_seed (declared const,
not implemented under src/) returns a device-specific value that is
persistent and unique for the device; being const it cannot modify the
scheduler state. -/
def static_random_address_seed (s : RadioState) : Nat :=
  s.deviceSeed

/-- Modelled from the spec: wake_up forces run to return at least once;
it only raises the wake flag and touches nothing else. -/
def wake_up (s : RadioState) : RadioState :=
  { s with wakeRequested := true }

/-- Modelled from the spec: completion of a pending advertising operation.
Unconditionally the new T0 is the old T0 plus whenT.  If the receive view
is empty no receive window was opened and adv_timeout fires when the PDU
was sent; otherwise a valid response is copied into the receive view
before adv_received fires, a CRC error makes adv_timeout fire immediately
at the time of the error, and no response makes adv_timeout fire when the
window closes. -/
def complete_adv (s : RadioState) (_transmit : write_buffer) (whenT : Nat)
    (receive : read_buffer) (cfg : Config) (env : AdvEnv) :
    RadioState × Delivery :=
  let s1 : RadioState :=
    { s with anchor := s.anchor + whenT, pending := none }
  if receive.size = 0 then
    (s1, ⟨.adv_timeout, env.sendDone, cfg⟩)
  else
    match env.event with
    | .response data t =>
        ({ s1 with
           mem := writeBytes s1.mem receive.addr (data.take receive.size) },
         ⟨.adv_received receive, t, cfg⟩)
    | .crcError t => (s1, ⟨.adv_timeout, t, cfg⟩)
    | .noResponse => (s1, ⟨.adv_timeout, env.windowClose, cfg⟩)

/-- Modelled from the spec: completion of a pending connection event.
When no valid PDU was received between start_receive and end_receive,
timeout fires and the anchor is unchanged (new T0 = old T0); when the
event closed normally, end_event fires and the new T0 is the absolute
time at which the first valid PDU was received from the master. -/
def complete_conn (s : RadioState) (endReceive : Nat) (cfg : Config)
    (env : ConnEnv) : RadioState × Delivery :=
  match env.firstReceive with
  | none =>
      ({ s with pending := none },
       ⟨.timeout, s.anchor + endReceive, cfg⟩)
  | some t =>
      ({ s with anchor := t, pending := none },
       ⟨.end_event, env.eventEnd, cfg⟩)

/-- Modelled from the spec: run allocates the CPU to the scheduled radio;
all callbacks are called from within this context.  One invocation lets
the pending operation (if any) complete according to the environment and
delivers exactly the one resulting callback, then clears the wake flag
and returns. -/
def run (s : RadioState) (env : Env) : RadioState × List Delivery :=
  match s.pending with
  | none => ({ s with wakeRequested := false }, [])
  | some (.adv _ tx w rx cfg) =>
      let r := complete_adv s tx w rx cfg env.adv
      ({ r.1 with wakeRequested := false }, [r.2])
  | some (.conn _ _ er _ cfg) =>
      let r := complete_conn s er cfg env.conn
      ({ r.1 with wakeRequested := false }, [r.2])

/-- The operations of the external interface, as actions on the state, so
that properties ranging over every operation (anchor stability, callback
delivery discipline) can be stated uniformly. -/
inductive Action
  | schedAdv (channel : Nat) (transmit : write_buffer) (whenT : Nat)
             (receive : read_buffer)
  | schedConn (channel startReceive endReceive connectionInterval : Nat)
  | setAccess (access_address crc_init : Nat)
  | readSeed
  | wakeUp
  | runStep (env : Env)
deriving DecidableEq, Repr

/-- One step of the interface: dispatch an action to the corresponding
operation.  Only runStep can deliver callbacks; every other operation
delivers none. -/
def step (s : RadioState) (a : Action) : RadioState × List Delivery :=
  match a with
  | .schedAdv ch tx w rx =>
      (schedule_advertisment_and_receive s ch tx w rx, [])
  | .schedConn ch sr er ci =>
      (schedule_connection_event s ch sr er ci, [])
  | .setAccess aa ci => (set_access_address_and_crc_init s aa ci, [])
  | .readSeed => (s, [])
  | .wakeUp => (wake_up s, [])
  | .runStep env => run s env

/-- Number of scheduled operations pending in a state. -/
def pendingCount (s : RadioState) : Nat :=
  match s.pending with
  | none => 0
  | some _ => 1

/-- Modelled from the spec: when a connection event times out, the event
is retried at the next connection_interval boundary relative to the
anchor, i.e. the next event begins at T0 + connection_interval. -/
def next_connection_event_time (s : RadioState)
    (connectionInterval : Nat) : Nat :=
  s.anchor + connectionInterval

/-- C1: for every call to schedule_advertisment_and_receive, exactly one
of the two advertising outcomes (adv_received / adv_timeout) fires, and
after the outcome fires the new anchor satisfies new T0 = old T0 + when,
regardless of which outcome fired. -/
theorem adv_exactly_one_outcome_and_anchor (s : RadioState) (ch : Nat)
    (tx : write_buffer) (w : Nat) (rx : read_buffer) (cfg : Config)
    (env : Env) (h : s.pending = some (.adv ch tx w rx cfg)) :
    (run s env).2.length = 1 ∧
    (∀ d ∈ (run s env).2,
       d.outcome = Outcome.adv_received rx ∨
       d.outcome = Outcome.adv_timeout) ∧
    (run s env).1.anchor = s.anchor + w := by
  unfold run
  rw [h]
  simp only [complete_adv]
  by_cases hrx : rx.size = 0
  · simp [hrx]
  · cases hev : env.adv.event <;> simp [hrx, hev]

/-- C1 witness: concrete advertising completion with a valid response. -/
theorem adv_exactly_one_outcome_and_anchor_witness :
    ({ anchor := 100, latch := ⟨1, 2⟩,
       pending := some (.adv 37 ⟨0, 4⟩ 50 ⟨4, 3⟩ ⟨1, 2⟩),
       mem := [10, 11, 12, 13, 0, 0, 0, 0], deviceSeed := 42,
       wakeRequested := false } : RadioState).pending
      = some (.adv 37 ⟨0, 4⟩ 50 ⟨4, 3⟩ ⟨1, 2⟩) ∧
    (run { anchor := 100, latch := ⟨1, 2⟩,
           pending := some (.adv 37 ⟨0, 4⟩ 50 ⟨4, 3⟩ ⟨1, 2⟩),
           mem := [10, 11, 12, 13, 0, 0, 0, 0], deviceSeed := 42,
           wakeRequested := false }
         ⟨⟨200, 300, .response [7, 8, 9] 250⟩, ⟨none, 0⟩⟩).1.anchor
      = 100 + 50 :=
  ⟨rfl,
   (adv_exactly_one_outcome_and_anchor _ 37 ⟨0, 4⟩ 50 ⟨4, 3⟩ ⟨1, 2⟩
     ⟨⟨200, 300, .response [7, 8, 9] 250⟩, ⟨none, 0⟩⟩ rfl).2.2⟩

/-- C2: for every call to schedule_connection_event, exactly one of the
two connection outcomes fires; on timeout (no valid PDU received in the
window) the anchor is unchanged, and on end_event the anchor equals the
absolute time at which the first valid PDU was received from the peer. -/
theorem conn_exactly_one_outcome_and_anchor (s : RadioState)
    (ch sr er ci : Nat) (cfg : Config) (env : Env)
    (h : s.pending = some (.conn ch sr er ci cfg)) :
    (run s env).2.length = 1 ∧
    (∀ d ∈ (run s env).2,
       d.outcome = Outcome.timeout ∨ d.outcome = Outcome.end_event) ∧
    (env.conn.firstReceive = none →
       (run s env).1.anchor = s.anchor ∧
       ∀ d ∈ (run s env).2, d.outcome = Outcome.timeout) ∧
    (∀ t, env.conn.firstReceive = some t →
       (run s env).1.anchor = t ∧
       ∀ d ∈ (run s env).2, d.outcome = Outcome.end_event) := by
  unfold run
  rw [h]
  simp only [complete_conn]
  cases hfr : env.conn.firstReceive <;> simp [hfr]

/-- C2 witness: concrete connection event where the first valid PDU is
received at absolute time 600, and the same event with no PDU at all. -/
theorem conn_exactly_one_outcome_and_anchor_witness :
    ({ anchor := 100, latch := ⟨1, 2⟩,
       pending := some (.conn 5 0 1250 7500 ⟨1, 2⟩),
       mem := [], deviceSeed := 42,
       wakeRequested := false } : RadioState).pending
      = some (.conn 5 0 1250 7500 ⟨1, 2⟩) ∧
    (run { anchor := 100, latch := ⟨1, 2⟩,
           pending := some (.conn 5 0 1250 7500 ⟨1, 2⟩),
           mem := [], deviceSeed := 42, wakeRequested := false }
         ⟨⟨0, 0, .noResponse⟩, ⟨some 600, 900⟩⟩).1.anchor = 600 :=
  ⟨rfl,
   ((conn_exactly_one_outcome_and_anchor _ 5 0 1250 7500 ⟨1, 2⟩
       ⟨⟨0, 0, .noResponse⟩, ⟨some 600, 900⟩⟩ rfl).2.2.2 600 rfl).1⟩

/-- C3: an advertising operation with an empty receive buffer ends with
adv_timeout, opens no receive window (even a response in the environment
is ignored and no byte is written to memory), and with when = 0 the new
anchor equals the old anchor. -/
theorem adv_empty_receive_timeout (s : RadioState) (ch : Nat)
    (tx : write_buffer) (rx : read_buffer) (cfg : Config) (env : Env)
    (h : s.pending = some (.adv ch tx 0 rx cfg)) (hrx : rx.size = 0) :
    (∀ d ∈ (run s env).2, d.outcome = Outcome.adv_timeout) ∧
    (run s env).1.mem = s.mem ∧
    (run s env).1.anchor = s.anchor := by
  unfold run
  rw [h]
  simp [complete_adv, hrx]

/-- C3 witness: advertising on channel 37 with a populated transmit
buffer, when = 0, empty receive buffer, while the environment even
reports a response; adv_timeout fires, memory and anchor unchanged. -/
theorem adv_empty_receive_timeout_witness :
    (∀ d ∈ (run { anchor := 100, latch := ⟨1, 2⟩,
                  pending := some (.adv 37 ⟨0, 4⟩ 0 ⟨4, 0⟩ ⟨1, 2⟩),
                  mem := [10, 11, 12, 13], deviceSeed := 42,
                  wakeRequested := false }
                ⟨⟨200, 300, .response [7, 8, 9] 250⟩, ⟨none, 0⟩⟩).2,
       d.outcome = Outcome.adv_timeout) ∧
    (run { anchor := 100, latch := ⟨1, 2⟩,
           pending := some (.adv 37 ⟨0, 4⟩ 0 ⟨4, 0⟩ ⟨1, 2⟩),
           mem := [10, 11, 12, 13], deviceSeed := 42,
           wakeRequested := false }
         ⟨⟨200, 300, .response [7, 8, 9] 250⟩, ⟨none, 0⟩⟩).1.mem
      = [10, 11, 12, 13] ∧
    (run { anchor := 100, latch := ⟨1, 2⟩,
           pending := some (.adv 37 ⟨0, 4⟩ 0 ⟨4, 0⟩ ⟨1, 2⟩),
           mem := [10, 11, 12, 13], deviceSeed := 42,
           wakeRequested := false }
         ⟨⟨200, 300, .response [7, 8, 9] 250⟩, ⟨none, 0⟩⟩).1.anchor = 100 :=
  adv_empty_receive_timeout _ 37 ⟨0, 4⟩ ⟨4, 0⟩ ⟨1, 2⟩
    ⟨⟨200, 300, .response [7, 8, 9] 250⟩, ⟨none, 0⟩⟩ rfl rfl

/-- C4: when received advertising data fails the CRC-equivalent integrity
check, the delivered outcome is adv_timeout (never adv_received), and it
fires at the time of the CRC error, strictly before the receive window
would close, rather than waiting out the window. -/
theorem adv_crc_error_immediate_timeout (s : RadioState) (ch : Nat)
    (tx : write_buffer) (w : Nat) (rx : read_buffer) (cfg : Config)
    (env : Env) (t : Nat)
    (h : s.pending = some (.adv ch tx w rx cfg)) (hrx : rx.size ≠ 0)
    (hev : env.adv.event = .crcError t) (ht : t < env.adv.windowClose) :
    (∀ d ∈ (run s env).2,
       d.outcome = Outcome.adv_timeout ∧ d.time = t ∧
       d.time < env.adv.windowClose) ∧
    (∀ d ∈ (run s env).2, ∀ rx2, d.outcome ≠ Outcome.adv_received rx2) := by
  unfold run
  rw [h]
  simp [complete_adv, hrx, hev, ht]

/-- C4 witness: concrete advertising operation whose received data fails
the integrity check at time 250 while the window closes at 300. -/
theorem adv_crc_error_immediate_timeout_witness :
    (⟨Outcome.adv_timeout, 250, ⟨1, 2⟩⟩ : Delivery)
      ∈ (run { anchor := 100, latch := ⟨1, 2⟩,
               pending := some (.adv 37 ⟨0, 4⟩ 50 ⟨4, 3⟩ ⟨1, 2⟩),
               mem := [10, 11, 12, 13, 0, 0, 0, 0], deviceSeed := 42,
               wakeRequested := false }
             ⟨⟨200, 300, .crcError 250⟩, ⟨none, 0⟩⟩).2 ∧
    ((⟨Outcome.adv_timeout, 250, ⟨1, 2⟩⟩ : Delivery).outcome
       = Outcome.adv_timeout ∧
     (⟨Outcome.adv_timeout, 250, ⟨1, 2⟩⟩ : Delivery).time = 250 ∧
     (⟨Outcome.adv_timeout, 250, ⟨1, 2⟩⟩ : Delivery).time
       < (⟨⟨200, 300, .crcError 250⟩, ⟨none, 0⟩⟩ : Env).adv.windowClose) :=
  ⟨by decide,
   (adv_crc_error_immediate_timeout
      { anchor := 100, latch := ⟨1, 2⟩,
        pending := some (.adv 37 ⟨0, 4⟩ 50 ⟨4, 3⟩ ⟨1, 2⟩),
        mem := [10, 11, 12, 13, 0, 0, 0, 0], deviceSeed := 42,
        wakeRequested := false } 37 ⟨0, 4⟩ 50 ⟨4, 3⟩ ⟨1, 2⟩
      ⟨⟨200, 300, .crcError 250⟩, ⟨none, 0⟩⟩ 250 rfl (by decide) rfl
      (by decide)).1 ⟨Outcome.adv_timeout, 250, ⟨1, 2⟩⟩ (by decide)⟩

/-- C5: with no scheduled operation pending, values passed to
set_access_address_and_crc_init are applied starting with the next call
to either scheduling function (the next pending operation captures them
and its completion runs under them), and the set call itself changes no
pending operation, anchor or memory, so it cannot retroactively affect
any in-flight or previously completed operation. -/
theorem set_access_applied_next_not_retroactive (s : RadioState)
    (aa ci ch : Nat) (tx : write_buffer) (w : Nat) (rx : read_buffer)
    (sr er cint : Nat) (envA envC : Env) (_h : s.pending = none) :
    (set_access_address_and_crc_init s aa ci).pending = s.pending ∧
    (set_access_address_and_crc_init s aa ci).anchor = s.anchor ∧
    (set_access_address_and_crc_init s aa ci).mem = s.mem ∧
    (schedule_advertisment_and_receive
        (set_access_address_and_crc_init s aa ci) ch tx w rx).pending
      = some (.adv ch tx w rx ⟨aa, ci⟩) ∧
    (∀ d ∈ (run (schedule_advertisment_and_receive
        (set_access_address_and_crc_init s aa ci) ch tx w rx) envA).2,
       d.usedConfig = ⟨aa, ci⟩) ∧
    (schedule_connection_event
        (set_access_address_and_crc_init s aa ci) ch sr er cint).pending
      = some (.conn ch sr er cint ⟨aa, ci⟩) ∧
    (∀ d ∈ (run (schedule_connection_event
        (set_access_address_and_crc_init s aa ci) ch sr er cint) envC).2,
       d.usedConfig = ⟨aa, ci⟩) := by
  refine ⟨rfl, rfl, rfl, rfl, ?_, rfl, ?_⟩
  · unfold run schedule_advertisment_and_receive
      set_access_address_and_crc_init
    simp only [complete_adv]
    by_cases hrx : rx.size = 0
    · simp [hrx]
    · cases hev : envA.adv.event <;> simp [hrx, hev]
  · unfold run schedule_connection_event set_access_address_and_crc_init
    simp only [complete_conn]
    cases hfr : envC.conn.firstReceive <;> simp [hfr]

/-- C5 witness: on an idle state, after setting access address 77 and
CRC init 88, the next advertising schedule captures exactly these values. -/
theorem set_access_applied_next_not_retroactive_witness :
    ({ anchor := 100, latch := ⟨1, 2⟩, pending := none, mem := [],
       deviceSeed := 42, wakeRequested := false } : RadioState).pending
      = none ∧
    (schedule_advertisment_and_receive
        (set_access_address_and_crc_init
          { anchor := 100, latch := ⟨1, 2⟩, pending := none, mem := [],
            deviceSeed := 42, wakeRequested := false } 77 88)
        37 ⟨0, 4⟩ 50 ⟨4, 3⟩).pending
      = some (.adv 37 ⟨0, 4⟩ 50 ⟨4, 3⟩ ⟨77, 88⟩) :=
  ⟨rfl,
   (set_access_applied_next_not_retroactive _ 77 88 37 ⟨0, 4⟩ 50 ⟨4, 3⟩
      0 1250 7500 ⟨⟨0, 0, .noResponse⟩, ⟨none, 0⟩⟩
      ⟨⟨0, 0, .noResponse⟩, ⟨none, 0⟩⟩ rfl).2.2.2.1⟩

/-- C6: a connection event whose receive window closes with no valid PDU
delivers timeout and leaves the anchor unchanged, so the retried event
begins at the next connection_interval boundary relative to the original
T0: old T0 + connection_interval, also after rescheduling the same
parameters. -/
theorem conn_timeout_retry_at_interval (s : RadioState)
    (ch sr er ci : Nat) (cfg : Config) (env : Env)
    (h : s.pending = some (.conn ch sr er ci cfg))
    (hfr : env.conn.firstReceive = none) :
    (∀ d ∈ (run s env).2, d.outcome = Outcome.timeout) ∧
    (run s env).1.anchor = s.anchor ∧
    next_connection_event_time (run s env).1 ci = s.anchor + ci ∧
    next_connection_event_time
      (schedule_connection_event (run s env).1 ch sr er ci) ci
      = s.anchor + ci := by
  unfold run
  rw [h]
  simp [complete_conn, next_connection_event_time,
    schedule_connection_event, hfr]

/-- C6 witness: connection event with start_receive 0, end_receive 1250,
connection_interval 7500 and no PDU arriving; the retry boundary is
old T0 + 7500 = 100 + 7500. -/
theorem conn_timeout_retry_at_interval_witness :
    (run { anchor := 100, latch := ⟨1, 2⟩,
           pending := some (.conn 5 0 1250 7500 ⟨1, 2⟩),
           mem := [], deviceSeed := 42, wakeRequested := false }
         ⟨⟨0, 0, .noResponse⟩, ⟨none, 0⟩⟩).1.anchor = 100 ∧
    next_connection_event_time
      (run { anchor := 100, latch := ⟨1, 2⟩,
             pending := some (.conn 5 0 1250 7500 ⟨1, 2⟩),
             mem := [], deviceSeed := 42, wakeRequested := false }
           ⟨⟨0, 0, .noResponse⟩, ⟨none, 0⟩⟩).1 7500 = 100 + 7500 :=
  ⟨(conn_timeout_retry_at_interval _ 5 0 1250 7500 ⟨1, 2⟩
      ⟨⟨0, 0, .noResponse⟩, ⟨none, 0⟩⟩ rfl rfl).2.1,
   (conn_timeout_retry_at_interval _ 5 0 1250 7500 ⟨1, 2⟩
      ⟨⟨0, 0, .noResponse⟩, ⟨none, 0⟩⟩ rfl rfl).2.2.1⟩

/-- C7: the anchor is updated exactly once per completed scheduled
operation: every operation other than run leaves the anchor unchanged
(so the anchor is stable between a schedule call and the next anchor
update), run without a pending operation leaves it unchanged, and run
with a pending operation performs exactly the one outcome-specific
update. -/
theorem anchor_single_update_per_operation (s : RadioState) :
    (∀ a, (∀ env, a ≠ Action.runStep env) → (step s a).1.anchor = s.anchor) ∧
    (∀ env, s.pending = none → (run s env).1.anchor = s.anchor) ∧
    (∀ env ch tx w rx cfg, s.pending = some (.adv ch tx w rx cfg) →
       (run s env).1.anchor = s.anchor + w) ∧
    (∀ env ch sr er ci cfg, s.pending = some (.conn ch sr er ci cfg) →
       (env.conn.firstReceive = none → (run s env).1.anchor = s.anchor) ∧
       (∀ t, env.conn.firstReceive = some t →
          (run s env).1.anchor = t)) := by
  refine ⟨?_, ?_, ?_, ?_⟩
  · intro a ha
    cases a with
    | schedAdv ch tx w rx => rfl
    | schedConn ch sr er ci => rfl
    | setAccess aa ci => rfl
    | readSeed => rfl
    | wakeUp => rfl
    | runStep env => exact absurd rfl (ha env)
  · intro env h
    unfold run
    rw [h]
  · intro env ch tx w rx cfg h
    unfold run
    rw [h]
    simp only [complete_adv]
    by_cases hrx : rx.size = 0
    · simp [hrx]
    · cases hev : env.adv.event <;> simp [hrx, hev]
  · intro env ch sr er ci cfg h
    unfold run
    rw [h]
    simp only [complete_conn]
    cases hfr : env.conn.firstReceive <;> simp [hfr]

/-- C7 witness: on a concrete idle state, scheduling leaves the anchor at
100, and running a pending advertising operation with when 50 moves it to
exactly 150. -/
theorem anchor_single_update_per_operation_witness :
    (step { anchor := 100, latch := ⟨1, 2⟩, pending := none, mem := [],
            deviceSeed := 42, wakeRequested := false }
       (Action.schedAdv 37 ⟨0, 4⟩ 50 ⟨4, 3⟩)).1.anchor = 100 ∧
    (run { anchor := 100, latch := ⟨1, 2⟩,
           pending := some (.adv 37 ⟨0, 4⟩ 50 ⟨4, 3⟩ ⟨1, 2⟩),
           mem := [0, 0, 0, 0, 0, 0, 0], deviceSeed := 42,
           wakeRequested := false }
         ⟨⟨200, 300, .noResponse⟩, ⟨none, 0⟩⟩).1.anchor = 100 + 50 :=
  ⟨(anchor_single_update_per_operation _).1
     (Action.schedAdv 37 ⟨0, 4⟩ 50 ⟨4, 3⟩) (fun _ h => by cases h),
   (anchor_single_update_per_operation _).2.2.1
     ⟨⟨200, 300, .noResponse⟩, ⟨none, 0⟩⟩ 37 ⟨0, 4⟩ 50 ⟨4, 3⟩ ⟨1, 2⟩ rfl⟩

/-- C8: in the interleaving model of the interface, at most one scheduled
operation is pending in any state, outcome callbacks are delivered only
by run (every other operation delivers none), each run invocation
delivers at most one callback, and after run no operation is pending, so
no two outcome callbacks are ever delivered together. -/
theorem callbacks_synchronous_in_run (s : RadioState) (a : Action) :
    pendingCount s ≤ 1 ∧
    (step s a).2.length ≤ 1 ∧
    ((step s a).2 ≠ [] → ∃ env, a = Action.runStep env) ∧
    (∀ env, (run s env).1.pending = none) := by
  refine ⟨?_, ?_, ?_, ?_⟩
  · unfold pendingCount
    cases s.pending <;> simp
  · cases a with
    | runStep env =>
        unfold step run
        cases h : s.pending with
        | none => simp
        | some op => cases op <;> simp
    | schedAdv ch tx w rx => simp [step]
    | schedConn ch sr er ci => simp [step]
    | setAccess aa ci => simp [step]
    | readSeed => simp [step]
    | wakeUp => simp [step]
  · intro hne
    cases a with
    | runStep env => exact ⟨env, rfl⟩
    | schedAdv ch tx w rx => exact absurd rfl hne
    | schedConn ch sr er ci => exact absurd rfl hne
    | setAccess aa ci => exact absurd rfl hne
    | readSeed => exact absurd rfl hne
    | wakeUp => exact absurd rfl hne
  · intro env
    unfold run
    cases h : s.pending with
    | none => rfl
    | some op =>
        cases op with
        | adv ch tx w rx cfg =>
            simp only [complete_adv]
            by_cases hrx : rx.size = 0
            · simp [hrx]
            · cases hev : env.adv.event <;> simp [hrx, hev]
        | conn ch sr er ci cfg =>
            simp only [complete_conn]
            cases hfr : env.conn.firstReceive <;> simp [hfr]

/-- C8 witness: a schedule call delivers no callback, and running a
concrete pending operation delivers one callback and is only possible as
a runStep action. -/
theorem callbacks_synchronous_in_run_witness :
    (step { anchor := 100, latch := ⟨1, 2⟩,
            pending := some (.adv 37 ⟨0, 4⟩ 50 ⟨4, 3⟩ ⟨1, 2⟩),
            mem := [0, 0, 0, 0, 0, 0, 0], deviceSeed := 42,
            wakeRequested := false }
       (Action.runStep ⟨⟨200, 300, .noResponse⟩, ⟨none, 0⟩⟩)).2.length ≤ 1 ∧
    (run { anchor := 100, latch := ⟨1, 2⟩,
           pending := some (.adv 37 ⟨0, 4⟩ 50 ⟨4, 3⟩ ⟨1, 2⟩),
           mem := [0, 0, 0, 0, 0, 0, 0], deviceSeed := 42,
           wakeRequested := false }
         ⟨⟨200, 300, .noResponse⟩, ⟨none, 0⟩⟩).1.pending = none :=
  ⟨(callbacks_synchronous_in_run _
      (Action.runStep ⟨⟨200, 300, .noResponse⟩, ⟨none, 0⟩⟩)).2.1,
   (callbacks_synchronous_in_run
      { anchor := 100, latch := ⟨1, 2⟩,
        pending := some (.adv 37 ⟨0, 4⟩ 50 ⟨4, 3⟩ ⟨1, 2⟩),
        mem := [0, 0, 0, 0, 0, 0, 0], deviceSeed := 42,
        wakeRequested := false }
      (Action.runStep ⟨⟨200, 300, .noResponse⟩, ⟨none, 0⟩⟩)).2.2.2
     ⟨⟨200, 300, .noResponse⟩, ⟨none, 0⟩⟩⟩

/-- C9: static_random_address_seed is a pure query: reading the seed
leaves the whole state unchanged and delivers no callback, every
operation of the interface preserves the device seed, and repeated calls
on the same device return the same value. -/
theorem seed_pure_and_persistent (s : RadioState) (a : Action) :
    (step s Action.readSeed).1 = s ∧
    (step s Action.readSeed).2 = [] ∧
    ((step s a).1).deviceSeed = s.deviceSeed ∧
    static_random_address_seed (step s a).1 = static_random_address_seed s := by
  have hds : ((step s a).1).deviceSeed = s.deviceSeed := by
    cases a with
    | schedAdv ch tx w rx => rfl
    | schedConn ch sr er ci => rfl
    | setAccess aa ci => rfl
    | readSeed => rfl
    | wakeUp => rfl
    | runStep env =>
        unfold step run
        cases h : s.pending with
        | none => rfl
        | some op =>
            cases op with
            | adv ch tx w rx cfg =>
                simp only [complete_adv]
                by_cases hrx : rx.size = 0
                · simp [hrx]
                · cases hev : env.adv.event <;> simp [hrx, hev]
            | conn ch sr er ci cfg =>
                simp only [complete_conn]
                cases hfr : env.conn.firstReceive <;> simp [hfr]
  refine ⟨rfl, rfl, hds, ?_⟩
  unfold static_random_address_seed
  exact hds

/-- C10: the scheduling call of an advertising operation records exactly
the caller-supplied transmit and receive views and writes no byte of
memory; bytes are written into the memory named by the receive view only
upon completion of the operation, in the state the adv_received callback
observes, and every non-received completion leaves memory unchanged. -/
theorem adv_schedule_frame_effect (s : RadioState) (ch : Nat)
    (tx : write_buffer) (w : Nat) (rx : read_buffer) :
    (schedule_advertisment_and_receive s ch tx w rx).pending
      = some (.adv ch tx w rx s.latch) ∧
    (schedule_advertisment_and_receive s ch tx w rx).mem = s.mem ∧
    (∀ cfg env data t, s.pending = some (.adv ch tx w rx cfg) →
       rx.size ≠ 0 → env.adv.event = .response data t →
       (run s env).1.mem = writeBytes s.mem rx.addr (data.take rx.size) ∧
       ∀ d ∈ (run s env).2, d.outcome = Outcome.adv_received rx) ∧
    (∀ cfg env t, s.pending = some (.adv ch tx w rx cfg) →
       env.adv.event = .crcError t → (run s env).1.mem = s.mem) ∧
    (∀ cfg env, s.pending = some (.adv ch tx w rx cfg) →
       env.adv.event = .noResponse → (run s env).1.mem = s.mem) := by
  refine ⟨rfl, rfl, ?_, ?_, ?_⟩
  · intro cfg env data t h hrx hev
    unfold run
    rw [h]
    simp [complete_adv, hrx, hev]
  · intro cfg env t h hev
    unfold run
    rw [h]
    simp only [complete_adv]
    by_cases hrx : rx.size = 0 <;> simp [hrx, hev]
  · intro cfg env h hev
    unfold run
    rw [h]
    simp only [complete_adv]
    by_cases hrx : rx.size = 0 <;> simp [hrx, hev]

/-- C10 witness: scheduling leaves a concrete memory untouched, and the
completion of the operation with a valid response writes the received
bytes, truncated to the view size, at the view address. -/
theorem adv_schedule_frame_effect_witness :
    (schedule_advertisment_and_receive
        { anchor := 100, latch := ⟨1, 2⟩, pending := none,
          mem := [10, 11, 12, 13, 0, 0, 0], deviceSeed := 42,
          wakeRequested := false } 37 ⟨0, 4⟩ 50 ⟨4, 3⟩).mem
      = [10, 11, 12, 13, 0, 0, 0] ∧
    (run { anchor := 100, latch := ⟨1, 2⟩,
           pending := some (.adv 37 ⟨0, 4⟩ 50 ⟨4, 3⟩ ⟨1, 2⟩),
           mem := [10, 11, 12, 13, 0, 0, 0], deviceSeed := 42,
           wakeRequested := false }
         ⟨⟨200, 300, .response [7, 8, 9] 250⟩, ⟨none, 0⟩⟩).1.mem
      = writeBytes [10, 11, 12, 13, 0, 0, 0] 4 [7, 8, 9] :=
  ⟨(adv_schedule_frame_effect
      { anchor := 100, latch := ⟨1, 2⟩, pending := none,
        mem := [10, 11, 12, 13, 0, 0, 0], deviceSeed := 42,
        wakeRequested := false } 37 ⟨0, 4⟩ 50 ⟨4, 3⟩).2.1,
   ((adv_schedule_frame_effect
      { anchor := 100, latch := ⟨1, 2⟩,
        pending := some (.adv 37 ⟨0, 4⟩ 50 ⟨4, 3⟩ ⟨1, 2⟩),
        mem := [10, 11, 12, 13, 0, 0, 0], deviceSeed := 42,
        wakeRequested := false } 37 ⟨0, 4⟩ 50 ⟨4, 3⟩).2.2.1
     ⟨1, 2⟩ ⟨⟨200, 300, .response [7, 8, 9] 250⟩, ⟨none, 0⟩⟩ [7, 8, 9] 250
     rfl (by decide) rfl).1⟩

end Bluetoe
